import Mathlib

set_option linter.unusedVariables false

/-!
# A verification model of when-changed (whenchanged/whenchanged.py)

Shallow embedding of the event filtering and dispatch core of the
when-changed file watcher. Paths are strings, Python dicts are modelled
as insertion-ordered association lists, timestamps are rationals, and
the OS filesystem is a function from path to optional modification time.
The three possibly-diverging or fallible pieces are made explicit:

* the recursive-interest while loop of WhenChanged.is_interested is run
  on fuel, an Option Bool result where none means the loop has not
  finished within the given number of iterations (the source loop never
  reassigns its loop variable, so this matters);
* WhenChanged.run_command returns a RunOutcome recording whether the
  gate suppressed the run, whether a child process was spawned and with
  which argument vector / shell flag / environment, and whether the
  final get_envvar lookup raised a KeyError;
* event handlers return Option (state, outcome), none meaning the
  handler diverged inside is_interested.
-/

namespace WhenChangedModel

/-! ## Python dict as an insertion-ordered association list -/

/-- Python dict assignment d[k] = v: update the value in place if the
key is present (keeping its position), otherwise append the new pair. -/
def dictSet : List (String × String) → String → String → List (String × String)
  | [], k, v => [(k, v)]
  | (k0, v0) :: rest, k, v =>
    if k0 = k then (k, v) :: rest else (k0, v0) :: dictSet rest k v

/-- Python dict lookup d[k], None when the key is absent. -/
def dictGet : List (String × String) → String → Option String
  | [], _ => none
  | (k0, v0) :: rest, k => if k0 = k then some v0 else dictGet rest k

/-- Python membership test k in d. -/
def dictHasKey (d : List (String × String)) (k : String) : Bool :=
  d.any (fun kv => kv.1 = k)

/-! ## Strings and paths -/

/-- Python str.upper for the ASCII names used by set_envvar/get_envvar. -/
def strUpper (s : String) : String := ⟨s.data.map Char.toUpper⟩

/-- Python str.replace applied to the literal placeholder, as in
item.replace('%f', thefile): scan left to right, substituting every
non-overlapping occurrence; the replacement is not rescanned. -/
def substPercentF (rep : List Char) : List Char → List Char
  | '%' :: 'f' :: rest => rep ++ substPercentF rep rest
  | c :: rest => c :: substPercentF rep rest
  | [] => []

/-- String-level wrapper of substPercentF. -/
def replacePercentF (item thefile : String) : String :=
  ⟨substPercentF thefile.data item.data⟩

/-- The prefix of p up to and including its last slash, i.e. Python
p[:p.rfind('/') + 1] (empty when p has no slash). -/
def headUpToLastSlash : List Char → List Char
  | [] => []
  | c :: rest =>
    if rest.any (fun x => x = '/') then c :: headUpToLastSlash rest
    else if c = '/' then ['/'] else []

/-- Drop trailing slashes, Python head.rstrip('/'). -/
def rstripSlashes (l : List Char) : List Char :=
  (l.reverse.dropWhile (fun x => x = '/')).reverse

/-- Whether the string consists only of slashes (true for the empty
string), Python head == '/' * len(head). -/
def isAllSlashes (l : List Char) : Bool := l.all (fun x => x = '/')

/-- posixpath.dirname: take everything up to the last slash, then strip
trailing slashes unless the head is empty or all slashes. -/
def dirname (p : String) : String :=
  let head := headUpToLastSlash p.data
  if head.isEmpty || isAllSlashes head then ⟨head⟩ else ⟨rstripSlashes head⟩

/-! ## The exclusion regexes

The five patterns of WhenChanged.exclude_list use only literal
characters, the any-character atom, character classes, star on a
single-character atom, an optional character, and the end anchor. The
matcher below implements exactly that fragment of Python re semantics:
the dot does not match a newline, and the dollar matches at the end of
the string or just before a final newline. re.findall(pattern, path) is
truthy iff the pattern matches starting at some position of path. -/

/-- A single-character regex atom: any character (not newline) or a
character class. -/
inductive RAtom where
  | anyc : RAtom
  | cls (cs : List Char) : RAtom
deriving DecidableEq

/-- Whether the atom matches one character. -/
def RAtom.matchc : RAtom → Char → Bool
  | .anyc, c => c ≠ '\n'
  | .cls cs, c => cs.contains c

/-- Regexes in continuation form: a literal character, a one-character
atom, a starred atom, an optional character or the end anchor, each
followed by the rest of the pattern. -/
inductive RE where
  | emp : RE
  | ch (c : Char) (k : RE) : RE
  | one (a : RAtom) (k : RE) : RE
  | star (a : RAtom) (k : RE) : RE
  | optc (c : Char) (k : RE) : RE
  | eos (k : RE) : RE
deriving DecidableEq

/-- Match the regex against a prefix of the input. Because every star
is over a single-character atom, a starred atom matches exactly by
consuming some number n of matching characters, which keeps the
recursion structural on the regex. -/
def reMatch : RE → List Char → Bool
  | .emp, _ => true
  | .ch _ _, [] => false
  | .ch c k, x :: rest => x = c && reMatch k rest
  | .one _ _, [] => false
  | .one a k, x :: rest => a.matchc x && reMatch k rest
  | .star a k, xs =>
    (List.range (xs.length + 1)).any (fun n =>
      (xs.take n).all a.matchc && reMatch k (xs.drop n))
  | .optc c k, xs =>
    (match xs with
     | [] => false
     | x :: rest => x = c && reMatch k rest) || reMatch k xs
  | .eos k, xs => (decide (xs = []) || decide (xs = ['\n'])) && reMatch k xs

/-- Search: does the regex match starting at some position? This is the
truthiness of re.findall(pattern, path). -/
def reSearch (r : RE) : List Char → Bool
  | [] => reMatch r []
  | x :: rest => reMatch r (x :: rest) || reSearch r rest

/-- Vim swap files, pattern 1 of exclude_list. -/
def reSwap : RE :=
  .ch '.' (.star .anyc (.ch '.' (.ch 's' (.ch 'w'
    (.star (.cls ['p', 'x']) (.eos .emp))))))

/-- File creation test file 4913, pattern 2 of exclude_list. -/
def re4913 : RE := .ch '4' (.ch '9' (.ch '1' (.ch '3' (.eos .emp))))

/-- Backup files, pattern 3 of exclude_list. -/
def reBackup : RE := .one .anyc (.ch '~' (.eos .emp))

/-- Git directories, pattern 4 of exclude_list. -/
def reGit : RE := .ch '.' (.ch 'g' (.ch 'i' (.ch 't' (.optc '/' .emp))))

/-- Pycache directories, pattern 5 of exclude_list. -/
def rePycache : RE :=
  .ch '_' (.ch '_' (.ch 'p' (.ch 'y' (.ch 'c' (.ch 'a' (.ch 'c' (.ch 'h'
    (.ch 'e' (.ch '_' (.ch '_' (.optc '/' .emp)))))))))))

/-- WhenChanged.exclude_list, the class-level list of exclusion
patterns. -/
def exclude_list : List RE := [reSwap, re4913, reBackup, reGit, rePycache]

/-- The exclusion scan at the top of is_interested: some pattern of
exclude_list has a nonempty findall on the path. -/
def excluded (path : String) : Bool :=
  exclude_list.any (fun r => reSearch r path.data)

/-! ## The watcher state (class WhenChanged) -/

/-- The mutable and configuration state of a WhenChanged instance.
files, command and the flags are set in __init__ and never written
again; pathsMap is the self.paths dict from canonical real path to the
original user label; last_run starts at 0; process_env starts as a copy
of the ambient environment; observerIsInotify models the
observer.__class__.__name__ == 'InotifyObserver' test of on_created. -/
structure WhenChanged where
  files : List String
  pathsMap : List (String × String)
  command : List String
  recursive : Bool
  run_once : Bool
  run_at_start : Bool
  verbose_mode : Nat
  quiet_mode : Bool
  last_run : ℚ
  process_env : List (String × String)
  observerIsInotify : Bool
deriving DecidableEq

/-- The paths dict built in __init__: paths[os.path.realpath(f)] = f for
each f in files, in order. realpath is passed in as the environment's
path-resolution function. -/
def buildPaths (files : List String) (realpath : String → String) :
    List (String × String) :=
  files.foldl (fun m f => dictSet m (realpath f) f) []

/-- WhenChanged.__init__: build the state and the list of
observer.schedule requests, each a (directory, recursive) pair. For a
directory target the source passes recursive=True literally (line 83);
for a file target it schedules the parent directory with the watchdog
default recursive=False (lines 86-87). -/
def initWatcher (files command : List String)
    (recursive run_once run_at_start : Bool)
    (verbose_mode : Nat) (quiet_mode : Bool)
    (realpath : String → String) (isDir : String → Bool)
    (ambientEnv : List (String × String)) (observerIsInotify : Bool) :
    WhenChanged × List (String × Bool) :=
  let pathsMap := buildPaths files realpath
  let st : WhenChanged :=
    { files := files, pathsMap := pathsMap, command := command,
      recursive := recursive, run_once := run_once,
      run_at_start := run_at_start, verbose_mode := verbose_mode,
      quiet_mode := quiet_mode, last_run := 0,
      process_env := ambientEnv, observerIsInotify := observerIsInotify }
  let calls := pathsMap.map (fun kv =>
    if isDir kv.1 then (kv.1, true) else (dirname kv.1, false))
  (st, calls)

/-! ## run_command -/

/-- The subprocess.call made by run_command: the substituted argument
list, the shell flag (len == 1), the environment passed to the child,
and whether stdout is redirected to the null device (quiet mode). -/
structure SpawnCall where
  argv : List String
  shell : Bool
  env : List (String × String)
  stdoutNull : Bool
deriving DecidableEq

/-- What a run_command invocation did: notRun when the run-once gate
suppressed the run (early return, nothing spawned); completed when a
child was spawned and the function returned normally; keyError when a
child was spawned and then the final get_envvar('event') lookup raised
KeyError because WHEN_CHANGED_EVENT is absent from process_env. -/
inductive RunOutcome where
  | notRun : RunOutcome
  | completed (call : SpawnCall) : RunOutcome
  | keyError (call : SpawnCall) : RunOutcome
deriving DecidableEq

/-- The child process spawned by the outcome, if any. Both completed
and keyError spawn: the KeyError is raised only after subprocess.call
has returned. -/
def RunOutcome.spawnedCall : RunOutcome → Option SpawnCall
  | .notRun => none
  | .completed call => some call
  | .keyError call => some call

/-- Whether the outcome is the KeyError raised in get_envvar. -/
def RunOutcome.isKeyError : RunOutcome → Bool
  | .keyError _ => true
  | _ => false

/-- WhenChanged.set_envvar: process_env['WHEN_CHANGED_' + name.upper()]
= value. -/
def set_envvar (st : WhenChanged) (name value : String) : WhenChanged :=
  { st with process_env :=
      dictSet st.process_env ("WHEN_CHANGED_" ++ strUpper name) value }

/-- WhenChanged.get_envvar: the dict lookup, none modelling the
KeyError case. -/
def get_envvar (st : WhenChanged) (name : String) : Option String :=
  dictGet st.process_env ("WHEN_CHANGED_" ++ strUpper name)

/-- The early-return gate at the top of run_command (the RunGate of the
spec): with run_once set, the run is suppressed when the file no longer
exists or when its mtime is strictly below last_run. The filesystem is
a function fs from path to optional mtime (none when os.path.exists is
false). -/
def shouldRun (st : WhenChanged) (fs : String → Option ℚ)
    (thefile : String) : Bool :=
  if st.run_once then
    match fs thefile with
    | none => false
    | some mtime => if mtime < st.last_run then false else true
  else true

/-- WhenChanged.run_command. now is the datetime.now() taken before the
spawn (used only for the log message); completionTime is the
time.time() read after the synchronous subprocess.call returns, which
becomes the new last_run. -/
def run_command (st : WhenChanged) (fs : String → Option ℚ)
    (thefile : String) (now completionTime : ℚ) :
    WhenChanged × RunOutcome :=
  if shouldRun st fs thefile then
    let new_command := st.command.map (fun item => replacePercentF item thefile)
    let st1 := set_envvar st "file" thefile
    let call : SpawnCall :=
      { argv := new_command, shell := new_command.length == 1,
        env := st1.process_env, stdoutNull := st.quiet_mode }
    let st2 := { st1 with last_run := completionTime }
    match get_envvar st2 "event" with
    | none => (st2, .keyError call)
    | some _ => (st2, .completed call)
  else (st, .notRun)

/-! ## is_interested -/

/-- The while loop of is_interested, lines 126-129, run on fuel. The
loop guard is dirname path != path; the body computes path_ :=
dirname path and returns True when path_ is a registered key, but never
reassigns path, exactly as in the source, so the recursive call keeps
path fixed and only the fuel decreases. some false means the guard
failed and control fell through to the final return False; none means
the loop is still running after the given number of iterations. -/
def ancestorLoop (st : WhenChanged) (path : String) : Nat → Option Bool
  | 0 => none
  | fuel + 1 =>
    if dirname path ≠ path then
      if dictHasKey st.pathsMap (dirname path) then some true
      else ancestorLoop st path fuel
    else some false

/-- WhenChanged.is_interested, with fuel bounding the iterations of the
recursive-mode while loop. -/
def is_interested (st : WhenChanged) (path : String) (fuel : Nat) :
    Option Bool :=
  if excluded path then some false
  else if dictHasKey st.pathsMap path then some true
  else
    let parent := dirname path
    if dictHasKey st.pathsMap parent then some true
    else if st.recursive then ancestorLoop st parent fuel
    else some false

/-! ## Event handlers -/

/-- A watchdog filesystem event as the handlers consume it. -/
structure FsEvent where
  is_directory : Bool
  src_path : String
  dest_path : String
deriving DecidableEq

/-- WhenChanged.on_change: run the command when the path is
interesting. none propagates divergence of is_interested. -/
def on_change (st : WhenChanged) (fs : String → Option ℚ) (fuel : Nat)
    (now completionTime : ℚ) (path : String) :
    Option (WhenChanged × RunOutcome) :=
  match is_interested st path fuel with
  | none => none
  | some true => some (run_command st fs path now completionTime)
  | some false => some (st, .notRun)

/-- WhenChanged.on_created, including the InotifyObserver suppression
of duplicate created events. -/
def on_created (st : WhenChanged) (fs : String → Option ℚ) (fuel : Nat)
    (now completionTime : ℚ) (event : FsEvent) :
    Option (WhenChanged × RunOutcome) :=
  if st.observerIsInotify then some (st, .notRun)
  else if event.is_directory then some (st, .notRun)
  else on_change (set_envvar st "event" "file_created") fs fuel
    now completionTime event.src_path

/-- WhenChanged.on_modified. -/
def on_modified (st : WhenChanged) (fs : String → Option ℚ) (fuel : Nat)
    (now completionTime : ℚ) (event : FsEvent) :
    Option (WhenChanged × RunOutcome) :=
  if event.is_directory then some (st, .notRun)
  else on_change (set_envvar st "event" "file_modified") fs fuel
    now completionTime event.src_path

/-- WhenChanged.on_moved: dispatches on the destination path. -/
def on_moved (st : WhenChanged) (fs : String → Option ℚ) (fuel : Nat)
    (now completionTime : ℚ) (event : FsEvent) :
    Option (WhenChanged × RunOutcome) :=
  if event.is_directory then some (st, .notRun)
  else on_change (set_envvar st "event" "file_moved") fs fuel
    now completionTime event.dest_path

/-- WhenChanged.on_deleted. -/
def on_deleted (st : WhenChanged) (fs : String → Option ℚ) (fuel : Nat)
    (now completionTime : ℚ) (event : FsEvent) :
    Option (WhenChanged × RunOutcome) :=
  if event.is_directory then some (st, .notRun)
  else on_change (set_envvar st "event" "file_deleted") fs fuel
    now completionTime event.src_path

/-- The run_at_start step at the top of WhenChanged.run (lines
167-169): a synthetic run_command on /dev/null before the observer is
started. -/
def runAtStartStep (st : WhenChanged) (fs : String → Option ℚ)
    (now completionTime : ℚ) : WhenChanged × RunOutcome :=
  if st.run_at_start then run_command st fs "/dev/null" now completionTime
  else (st, .notRun)

/-! ## Concrete fixtures used by the claim witnesses and
counterexamples -/

/-- A plain watcher configuration to specialise in concrete tests. -/
def baseWatcher : WhenChanged :=
  { files := [], pathsMap := [], command := ["make"], recursive := false,
    run_once := false, run_at_start := false, verbose_mode := 3,
    quiet_mode := false, last_run := 0, process_env := [],
    observerIsInotify := false }

/-- A recursive watcher whose registered canonical target is /a. -/
def watchRecA : WhenChanged :=
  { baseWatcher with
    files := ["/a"], pathsMap := [("/a", "/a")],
    recursive := true }

/-- The same watcher with recursive mode disabled. -/
def watchFlatA : WhenChanged := { watchRecA with recursive := false }

/-- A recursive watcher whose registered canonical target is /w. -/
def watchRecW : WhenChanged :=
  { baseWatcher with
    files := ["/w"], pathsMap := [("/w", "/w")],
    recursive := true }

/-- A non-recursive watcher registered on the directory /proj. -/
def watchProj : WhenChanged :=
  { baseWatcher with
    files := ["."], pathsMap := [("/proj", ".")] }

/-- A recursive watcher whose registered target is itself a path inside
a pycache directory. -/
def watchPycacheSelf : WhenChanged :=
  { baseWatcher with
    files := ["/p/__pycache__/x"],
    pathsMap := [("/p/__pycache__/x", "/p/__pycache__/x")],
    recursive := true }

/-- A run-once watcher with last_run = 10. -/
def watchOnce10 : WhenChanged :=
  { baseWatcher with
    pathsMap := [("/proj", ".")], run_once := true,
    last_run := 10 }

/-- A filesystem on which no path exists. -/
def fsGone : String → Option ℚ := fun _ => none

/-- A filesystem whose every mtime is 5. -/
def fsOld : String → Option ℚ := fun _ => some 5

/-- A filesystem whose every mtime is 20. -/
def fsNew : String → Option ℚ := fun _ => some 20

/-- A watcher for the command-substitution witness, with the event
variable already present. -/
def watchEcho : WhenChanged :=
  { baseWatcher with
    pathsMap := [("/proj", ".")],
    command := ["echo %f"],
    process_env := [("WHEN_CHANGED_EVENT", "file_modified")] }

/-- The spawn expected from watchEcho on /proj/a.txt. -/
def echoCall : SpawnCall :=
  { argv := ["echo /proj/a.txt"], shell := true,
    env := [("WHEN_CHANGED_EVENT", "file_modified"),
            ("WHEN_CHANGED_FILE", "/proj/a.txt")],
    stdoutNull := false }

/-- A watcher for the frame witness. -/
def watchFrame : WhenChanged :=
  { baseWatcher with
    files := ["/proj"], pathsMap := [("/proj", ".")],
    command := ["make %f"], process_env := [("HOME", "/root")] }

/-- watchFrame after one triggered run at completion time 5 on
/proj/a.txt (modified). -/
def watchFrameAfter : WhenChanged :=
  { watchFrame with
    last_run := 5,
    process_env := [("HOME", "/root"),
                    ("WHEN_CHANGED_EVENT", "file_modified"),
                    ("WHEN_CHANGED_FILE", "/proj/a.txt")] }

/-- The spawn expected from the frame witness run. -/
def frameCall : SpawnCall :=
  { argv := ["make /proj/a.txt"], shell := true,
    env := watchFrameAfter.process_env, stdoutNull := false }

/-- A modification event on /proj/a.txt. -/
def evProjA : FsEvent :=
  { is_directory := false, src_path := "/proj/a.txt",
    dest_path := "/proj/a.txt" }

/-- A directory event. -/
def evDir : FsEvent :=
  { is_directory := true, src_path := "/proj/sub",
    dest_path := "/proj/sub" }

/-- A watcher with run_at_start set and no WHEN_CHANGED_EVENT in the
copied ambient environment. -/
def watchStart : WhenChanged :=
  { baseWatcher with
    run_at_start := true,
    process_env := [("HOME", "/root")] }

/-! ## Helper lemmas -/

theorem dictGet_dictSet_ne (d : List (String × String)) (k v : String)
    (k' : String) (h : k' ≠ k) : dictGet (dictSet d k v) k' = dictGet d k' := by
  induction d with
  | nil => simp [dictSet, dictGet, Ne.symm h]
  | cons kv rest ih =>
    obtain ⟨k0, v0⟩ := kv
    by_cases hk : k0 = k
    · subst hk
      simp [dictSet, dictGet, Ne.symm h]
    · simp only [dictSet, if_neg hk, dictGet]
      by_cases hk' : k0 = k' <;> simp [hk', ih]

theorem envvar_key_event :
    "WHEN_CHANGED_" ++ strUpper "event" = "WHEN_CHANGED_EVENT" := by decide

theorem envvar_key_file :
    "WHEN_CHANGED_" ++ strUpper "file" = "WHEN_CHANGED_FILE" := by decide

/-- The while loop of is_interested never finishes once its guard holds
and the (fixed) parent is not a registered key: the body never
reassigns the loop variable. -/
theorem ancestorLoop_stuck (st : WhenChanged) (p : String)
    (hne : dirname p ≠ p)
    (hkey : dictHasKey st.pathsMap (dirname p) = false) :
    ∀ fuel, ancestorLoop st p fuel = none := by
  intro fuel
  induction fuel with
  | zero => rfl
  | succ n ih => simp [ancestorLoop, hne, hkey, ih]

/-- When the gate passes, run_command spawns a child. -/
theorem run_command_spawns (st : WhenChanged) (fs : String → Option ℚ)
    (p : String) (now t : ℚ) (h : shouldRun st fs p = true) :
    ((run_command st fs p now t).2).spawnedCall.isSome = true := by
  simp only [run_command, h, if_true]
  split <;> simp [RunOutcome.spawnedCall]

/-- When the gate fails, run_command returns immediately. -/
theorem run_command_suppressed (st : WhenChanged) (fs : String → Option ℚ)
    (p : String) (now t : ℚ) (h : shouldRun st fs p = false) :
    run_command st fs p now t = (st, .notRun) := by
  simp [run_command, h]

/-! ## The claims -/

/-- C1: the claim says that with recursive mode on, is_interested is
true for a registered directory's descendants at arbitrary depth, the
ancestor chain being walked up to the root. The code walks nothing: the
loop variable is never reassigned, so for a descendant three or more
levels below the target the loop spins forever — is_interested returns
none at every fuel in recursive mode, while the non-recursive half of
the claim (deep descendant yields false) does hold. -/
theorem deep_descendant_diverges :
    (∀ fuel, is_interested watchRecA "/a/b/c/d" fuel = none) ∧
    (∀ fuel, is_interested watchFlatA "/a/b/c/d" fuel = some false) := by
  constructor
  · intro fuel
    have h : is_interested watchRecA "/a/b/c/d" fuel =
        ancestorLoop watchRecA "/a/b/c" fuel := rfl
    rw [h]
    exact ancestorLoop_stuck watchRecA "/a/b/c" (by decide) (by decide) fuel
  · intro fuel
    rfl

/-- C2: the claim says is_interested is a total function, the
ancestor-walk loop always terminating. It is not: on a recursive
watcher registered at /w, the path /w/x/y/z makes the loop run forever
(none at every fuel), because the loop body computes the parent into a
throwaway variable and never advances the loop variable. -/
theorem is_interested_not_total :
    ∀ fuel, is_interested watchRecW "/w/x/y/z" fuel = none := by
  intro fuel
  have h : is_interested watchRecW "/w/x/y/z" fuel =
      ancestorLoop watchRecW "/w/x/y" fuel := rfl
  rw [h]
  exact ancestorLoop_stuck watchRecW "/w/x/y" (by decide) (by decide) fuel

/-- C3: the run gate of run_command: with run_once false a child is
always spawned; with run_once true the run is suppressed when the
trigger path no longer exists, suppressed when its mtime is strictly
below last_run, and a child is spawned otherwise. -/
theorem run_gate_spec (st : WhenChanged) (fs : String → Option ℚ)
    (p : String) (now t : ℚ) :
    (st.run_once = false →
      ((run_command st fs p now t).2).spawnedCall.isSome = true) ∧
    (st.run_once = true → fs p = none →
      (run_command st fs p now t).2 = .notRun) ∧
    (st.run_once = true → ∀ m, fs p = some m →
      ((m < st.last_run → (run_command st fs p now t).2 = .notRun) ∧
       (¬ m < st.last_run →
         ((run_command st fs p now t).2).spawnedCall.isSome = true))) := by
  refine ⟨fun h => ?_, fun h hfs => ?_, fun h m hfs => ⟨fun hlt => ?_, fun hge => ?_⟩⟩
  · exact run_command_spawns st fs p now t (by simp [shouldRun, h])
  · rw [run_command_suppressed st fs p now t (by simp [shouldRun, h, hfs])]
  · rw [run_command_suppressed st fs p now t (by simp [shouldRun, h, hfs, hlt])]
  · exact run_command_spawns st fs p now t (by simp [shouldRun, h, hfs, hge])

/-- Witness for C3: on a run-once watcher with last_run = 10, a vanished
file and an mtime-5 file are suppressed; an mtime-20 file and any file
on a run_once = false watcher spawn. -/
theorem run_gate_spec_witness :
    ((run_command watchProj fsGone "/x" 0 1).2).spawnedCall.isSome = true ∧
    (run_command watchOnce10 fsGone "/x" 0 1).2 = .notRun ∧
    (run_command watchOnce10 fsOld "/x" 0 1).2 = .notRun ∧
    ((run_command watchOnce10 fsNew "/x" 0 1).2).spawnedCall.isSome = true :=
  ⟨(run_gate_spec watchProj fsGone "/x" 0 1).1 rfl,
   (run_gate_spec watchOnce10 fsGone "/x" 0 1).2.1 rfl rfl,
   ((run_gate_spec watchOnce10 fsOld "/x" 0 1).2.2 rfl 5 rfl).1 (by decide),
   ((run_gate_spec watchOnce10 fsNew "/x" 0 1).2.2 rfl 20 rfl).2 (by decide)⟩

/-- C5: a path matching any exclusion pattern is never interesting,
whatever the registered targets, the recursive flag or the fuel: the
exclusion scan runs first and returns false immediately. -/
theorem excluded_never_interesting (st : WhenChanged) (p : String)
    (fuel : Nat) (h : excluded p = true) :
    is_interested st p fuel = some false := by
  simp [is_interested, h]

/-- Witness for C5: a pycache path is excluded even though it is
itself the registered canonical path of a recursive watcher. -/
theorem excluded_never_interesting_witness :
    excluded "/p/__pycache__/x" = true ∧
    dictHasKey watchPycacheSelf.pathsMap "/p/__pycache__/x" = true ∧
    is_interested watchPycacheSelf "/p/__pycache__/x" 3 = some false :=
  ⟨by decide, by decide,
   excluded_never_interesting watchPycacheSelf "/p/__pycache__/x" 3 (by decide)⟩

/-- Counterexample to C6 as stated: /proj is the registered directory
and /proj/a~ is a file whose parent is /proj, yet is_interested is
false, because the backup-file exclusion pattern matches the raw path
first. -/
theorem child_of_watched_dir_not_interesting :
    dirname "/proj/a~" = "/proj" ∧
    dictHasKey watchProj.pathsMap "/proj" = true ∧
    is_interested watchProj "/proj/a~" 0 = some false := by
  exact ⟨by decide, by decide, by decide⟩

/-- C6 amended: for every registered directory target D and every file
path F whose parent directory is D and which matches no exclusion
pattern, is_interested F is true. -/
theorem child_of_watched_dir_interesting (st : WhenChanged) (p : String)
    (fuel : Nat) (hex : excluded p = false)
    (hpar : dictHasKey st.pathsMap (dirname p) = true) :
    is_interested st p fuel = some true := by
  by_cases hp : dictHasKey st.pathsMap p = true
  · simp [is_interested, hex, hp]
  · simp only [Bool.not_eq_true] at hp
    simp [is_interested, hex, hp, hpar]

/-- Witness for C6 (amended): a regular file directly inside the
watched directory /proj is interesting. -/
theorem child_of_watched_dir_interesting_witness :
    excluded "/proj/a.txt" = false ∧
    dirname "/proj/a.txt" = "/proj" ∧
    is_interested watchProj "/proj/a.txt" 0 = some true :=
  ⟨by decide, by decide,
   child_of_watched_dir_interesting watchProj "/proj/a.txt" 0
     (by decide) (by decide)⟩

/-- Counterexample to C4 as stated: a watcher built with the recursive
option off and a directory target still requests a recursive
subscription — __init__ passes recursive=True literally for directory
targets, so the subscription is not recursive if and only if the option
is set. -/
theorem dir_schedule_ignores_recursive_option :
    (initWatcher ["/a"] ["make"] false false false 3 false id
      (fun _ => true) [] false).1.recursive = false ∧
    (initWatcher ["/a"] ["make"] false false false 3 false id
      (fun _ => true) [] false).2 = [("/a", true)] ∧
    (initWatcher ["/a"] ["make"] false false false 3 false id
      (fun _ => true) [] false).2 ≠ [("/a", false)] := by
  exact ⟨by decide, by decide, by decide⟩

/-- C4 amended: every registered canonical directory target gets a
directory-level subscription that is always recursive, whatever the
recursive option; every file target gets a non-recursive subscription
on its parent directory. -/
theorem schedule_requests (files command : List String)
    (recursive run_once run_at_start : Bool)
    (verbose_mode : Nat) (quiet_mode : Bool)
    (realpath : String → String) (isDir : String → Bool)
    (ambientEnv : List (String × String)) (ino : Bool) (p : String)
    (hp : p ∈ (initWatcher files command recursive run_once run_at_start
      verbose_mode quiet_mode realpath isDir ambientEnv ino).1.pathsMap.map
        Prod.fst) :
    (if isDir p then (p, true) else (dirname p, false)) ∈
      (initWatcher files command recursive run_once run_at_start
        verbose_mode quiet_mode realpath isDir ambientEnv ino).2 := by
  simp only [initWatcher] at hp ⊢
  obtain ⟨kv, hkv, hfst⟩ := List.mem_map.mp hp
  subst hfst
  exact List.mem_map_of_mem
    (fun kv : String × String =>
      if isDir kv.1 then (kv.1, true) else (dirname kv.1, false)) hkv

/-- Witness for C4 (amended): a directory target is scheduled
recursively at its own path, a file target non-recursively at its
parent. -/
theorem schedule_requests_witness :
    ("/a", true) ∈ (initWatcher ["/a"] ["make"] false false false 3 false
      id (fun _ => true) [] false).2 ∧
    ("/f", false) ∈ (initWatcher ["/f/a"] ["make"] false false false 3 false
      id (fun _ => false) [] false).2 := by
  constructor
  · simpa using schedule_requests ["/a"] ["make"] false false false 3 false
      id (fun _ => true) [] false "/a" (by decide)
  · simpa using schedule_requests ["/f/a"] ["make"] false false false 3 false
      id (fun _ => false) [] false "/f/a" (by decide)

/-- C7: whenever run_command spawns, the argument vector is the command
template with every occurrence of the literal placeholder substituted
by the trigger path, and the child goes through a shell exactly when
that vector has one token. -/
theorem spawn_argv_and_shell (st : WhenChanged) (fs : String → Option ℚ)
    (p : String) (now t : ℚ) (call : SpawnCall)
    (h : ((run_command st fs p now t).2).spawnedCall = some call) :
    call.argv = st.command.map (fun item => replacePercentF item p) ∧
    (call.shell = true ↔ call.argv.length = 1) := by
  by_cases hg : shouldRun st fs p = true
  · simp only [run_command, hg, if_true] at h
    split at h <;>
      · simp only [RunOutcome.spawnedCall, Option.some.injEq] at h
        subst h
        simp
  · rw [run_command_suppressed st fs p now t (by simpa using hg)] at h
    simp [RunOutcome.spawnedCall] at h

/-- Witness for C7: echo with a placeholder becomes a one-token shell
command carrying the trigger path. -/
theorem spawn_argv_and_shell_witness :
    echoCall.argv =
      watchEcho.command.map (fun item => replacePercentF item "/proj/a.txt") ∧
    (echoCall.shell = true ↔ echoCall.argv.length = 1) :=
  spawn_argv_and_shell watchEcho fsOld "/proj/a.txt" 0 2 echoCall (by decide)

/-- The frame of one triggered run: every configuration field of the
watcher is unchanged, every environment entry other than the two
event-context variables is unchanged, and last_run equals the
completion time of the synchronous child execution. -/
def frameOnly (st st' : WhenChanged) (t : ℚ) : Prop :=
  st'.files = st.files ∧ st'.pathsMap = st.pathsMap ∧
  st'.command = st.command ∧ st'.recursive = st.recursive ∧
  st'.run_once = st.run_once ∧ st'.run_at_start = st.run_at_start ∧
  st'.verbose_mode = st.verbose_mode ∧ st'.quiet_mode = st.quiet_mode ∧
  st'.observerIsInotify = st.observerIsInotify ∧
  st'.last_run = t ∧
  ∀ k, k ≠ "WHEN_CHANGED_EVENT" → k ≠ "WHEN_CHANGED_FILE" →
    dictGet st'.process_env k = dictGet st.process_env k

/-- A spawning run_command leaves exactly the file variable and
last_run updated on its input state. -/
theorem run_command_spawn_state (st : WhenChanged) (fs : String → Option ℚ)
    (p : String) (now t : ℚ) (st' : WhenChanged) (out : RunOutcome)
    (call : SpawnCall) (hrun : run_command st fs p now t = (st', out))
    (hsp : out.spawnedCall = some call) :
    st' = { set_envvar st "file" p with last_run := t } := by
  by_cases hg : shouldRun st fs p = true
  · simp only [run_command, hg, if_true] at hrun
    split at hrun <;>
      · injection hrun with h1 h2
        exact h1.symm
  · rw [run_command_suppressed st fs p now t (by simpa using hg)] at hrun
    injection hrun with h1 h2
    rw [← h2] at hsp
    simp [RunOutcome.spawnedCall] at hsp

/-- A spawning on_change on a state whose event variable was just set
leaves exactly the two event-context variables and last_run updated. -/
theorem on_change_frame (st : WhenChanged) (kind : String)
    (fs : String → Option ℚ) (fuel : Nat) (now t : ℚ) (path : String)
    (st' : WhenChanged) (out : RunOutcome) (call : SpawnCall)
    (h : on_change (set_envvar st "event" kind) fs fuel now t path =
      some (st', out))
    (hsp : out.spawnedCall = some call) :
    frameOnly st st' t := by
  unfold on_change at h
  split at h
  · exact absurd h (by simp)
  · injection h with h'
    have hst := run_command_spawn_state _ fs path now t st' out call h' hsp
    subst hst
    refine ⟨rfl, rfl, rfl, rfl, rfl, rfl, rfl, rfl, rfl, rfl, ?_⟩
    intro k hk1 hk2
    show dictGet
      (dictSet (dictSet st.process_env ("WHEN_CHANGED_" ++ strUpper "event")
        kind) ("WHEN_CHANGED_" ++ strUpper "file") path) k =
      dictGet st.process_env k
    rw [envvar_key_event, envvar_key_file,
      dictGet_dictSet_ne _ _ _ _ hk2, dictGet_dictSet_ne _ _ _ _ hk1]
  · injection h with h'
    injection h' with he1 he2
    rw [← he2] at hsp
    simp [RunOutcome.spawnedCall] at hsp

/-- C8: every triggered run — any of the four event handlers ending in
a spawned child — mutates only last_run and the two event-context
environment entries of the watcher state, and sets last_run to the
completion time of the synchronous child execution. -/
theorem triggered_run_frame (st : WhenChanged) (fs : String → Option ℚ)
    (fuel : Nat) (now t : ℚ) (ev : FsEvent) (st' : WhenChanged)
    (out : RunOutcome) (call : SpawnCall)
    (hrun : on_created st fs fuel now t ev = some (st', out) ∨
            on_modified st fs fuel now t ev = some (st', out) ∨
            on_moved st fs fuel now t ev = some (st', out) ∨
            on_deleted st fs fuel now t ev = some (st', out))
    (hsp : out.spawnedCall = some call) :
    frameOnly st st' t := by
  have notRunCase : ∀ hx : some (st, RunOutcome.notRun) = some (st', out),
      frameOnly st st' t := by
    intro hx
    injection hx with hx'
    injection hx' with he1 he2
    rw [← he2] at hsp
    simp [RunOutcome.spawnedCall] at hsp
  rcases hrun with h | h | h | h
  · unfold on_created at h
    split at h
    · exact notRunCase h
    · split at h
      · exact notRunCase h
      · exact on_change_frame st "file_created" fs fuel now t ev.src_path
          st' out call h hsp
  · unfold on_modified at h
    split at h
    · exact notRunCase h
    · exact on_change_frame st "file_modified" fs fuel now t ev.src_path
        st' out call h hsp
  · unfold on_moved at h
    split at h
    · exact notRunCase h
    · exact on_change_frame st "file_moved" fs fuel now t ev.dest_path
        st' out call h hsp
  · unfold on_deleted at h
    split at h
    · exact notRunCase h
    · exact on_change_frame st "file_deleted" fs fuel now t ev.src_path
        st' out call h hsp

/-- Witness for C8: a concrete modification on a watched directory's
file runs the command and the state differs only in last_run (set to
the completion time 5, not the start time 4) and the two event-context
variables. -/
theorem triggered_run_frame_witness : frameOnly watchFrame watchFrameAfter 5 :=
  triggered_run_frame watchFrame fsOld 0 4 5 evProjA watchFrameAfter
    (.completed frameCall) frameCall (Or.inr (Or.inl (by decide))) (by decide)

/-- C9: an event whose is_directory flag is set is silently ignored by
all four handlers: the state is returned unchanged and nothing runs. -/
theorem directory_events_ignored (st : WhenChanged)
    (fs : String → Option ℚ) (fuel : Nat) (now t : ℚ) (ev : FsEvent)
    (h : ev.is_directory = true) :
    on_created st fs fuel now t ev = some (st, .notRun) ∧
    on_modified st fs fuel now t ev = some (st, .notRun) ∧
    on_moved st fs fuel now t ev = some (st, .notRun) ∧
    on_deleted st fs fuel now t ev = some (st, .notRun) := by
  refine ⟨?_, ?_, ?_, ?_⟩ <;>
    simp [on_created, on_modified, on_moved, on_deleted, h]

/-- Witness for C9: a directory event on a watcher whose target is the
event's own parent still does nothing. -/
theorem directory_events_ignored_witness :
    on_created watchProj fsOld 3 0 1 evDir = some (watchProj, .notRun) ∧
    on_modified watchProj fsOld 3 0 1 evDir = some (watchProj, .notRun) ∧
    on_moved watchProj fsOld 3 0 1 evDir = some (watchProj, .notRun) ∧
    on_deleted watchProj fsOld 3 0 1 evDir = some (watchProj, .notRun) :=
  directory_events_ignored watchProj fsOld 3 0 1 evDir rfl

/-- C10: with run_at_start set and WHEN_CHANGED_EVENT absent from the
copied ambient environment, the initial synthetic run_command on
/dev/null spawns the child and then raises KeyError in
get_envvar('event') instead of completing normally (whenever the
run-once gate lets the synthetic run through, which is vacuous when
run_once is off). -/
theorem run_at_start_keyerror (st : WhenChanged) (fs : String → Option ℚ)
    (now t : ℚ) (hstart : st.run_at_start = true)
    (henv : dictGet st.process_env "WHEN_CHANGED_EVENT" = none)
    (hgate : st.run_once = false ∨
      ∃ m, fs "/dev/null" = some m ∧ ¬ m < st.last_run) :
    ((runAtStartStep st fs now t).2).isKeyError = true ∧
    ((runAtStartStep st fs now t).2).spawnedCall.isSome = true := by
  have hg : shouldRun st fs "/dev/null" = true := by
    rcases hgate with h | ⟨m, hm, hlt⟩
    · simp [shouldRun, h]
    · cases hro : st.run_once <;> simp [shouldRun, hro, hm, hlt]
  have hev : get_envvar { set_envvar st "file" "/dev/null" with
      last_run := t } "event" = none := by
    show dictGet (dictSet st.process_env ("WHEN_CHANGED_" ++ strUpper "file")
      "/dev/null") ("WHEN_CHANGED_" ++ strUpper "event") = none
    rw [envvar_key_event, envvar_key_file,
      dictGet_dictSet_ne _ _ _ _ (by decide), henv]
  simp only [runAtStartStep, hstart, if_true, run_command, hg]
  rw [hev]
  exact ⟨rfl, rfl⟩

/-- Witness for C10: a concrete run_at_start watcher whose environment
has no WHEN_CHANGED_EVENT entry ends the synthetic run in the KeyError
after spawning. -/
theorem run_at_start_keyerror_witness :
    ((runAtStartStep watchStart fsOld 0 1).2).isKeyError = true ∧
    ((runAtStartStep watchStart fsOld 0 1).2).spawnedCall.isSome = true :=
  run_at_start_keyerror watchStart fsOld 0 1 rfl (by decide) (Or.inl rfl)

end WhenChangedModel
